import Mathlib

/-
Verification of the training/validation/checkpointing loops of
src/Landmark_Classifier_AI/src/train.py.

The Python code is orchestration around a tensor library; what is
verifiable is the numeric bookkeeping: the incremental running-average
recurrence shared by `train_one_epoch` (line 38), `valid_one_epoch`
(line 68) and `one_epoch_test` (line 148), and the relative-improvement
checkpoint rule of `optimize` (lines 98-102).

Embedding conventions:
- Per-batch loss values (the results of `loss_value.item()`) are
  abstracted as a given sequence.  Exact-arithmetic claims use `ℚ`.
- NaN propagation uses `RVal`, rationals extended with a `nan` element
  absorbing every arithmetic operation, matching IEEE NaN propagation
  for the operations the loops perform.
- The model/optimizer state is an opaque type `P` threaded explicitly;
  `train_one_epoch` may change it (optimizer.step), the no-grad loops
  thread it unchanged, mirroring the absence of any mutating call in
  their bodies.
-/

namespace Landmark

/-- Embedding of the loop of `train_one_epoch` (train.py lines 21-38) over the
sequence of per-batch loss values: `train_loss = train_loss +
(1 / (batch_idx + 1)) * (loss_value - train_loss)`. -/
def train_one_epoch_loop : List ℚ → ℕ → ℚ → ℚ
  | [], _, train_loss => train_loss
  | loss_value :: rest, batch_idx, train_loss =>
    train_one_epoch_loop rest (batch_idx + 1)
      (train_loss + (1 / ((batch_idx : ℚ) + 1)) * (loss_value - train_loss))

/-- Embedding of `train_one_epoch` (train.py lines 11-40): running average of
the batch losses, starting from `train_loss = 0.0` and `batch_idx = 0`. -/
def train_one_epoch (batch_losses : List ℚ) : ℚ :=
  train_one_epoch_loop batch_losses 0 0

/-- Embedding of the loop of `valid_one_epoch` (train.py lines 54-68):
`valid_loss = valid_loss + (1 / (batch_idx + 1)) * (loss_value - valid_loss)`. -/
def valid_one_epoch_loop : List ℚ → ℕ → ℚ → ℚ
  | [], _, valid_loss => valid_loss
  | loss_value :: rest, batch_idx, valid_loss =>
    valid_one_epoch_loop rest (batch_idx + 1)
      (valid_loss + (1 / ((batch_idx : ℚ) + 1)) * (loss_value - valid_loss))

/-- Embedding of `valid_one_epoch` (train.py lines 43-70). -/
def valid_one_epoch (batch_losses : List ℚ) : ℚ :=
  valid_one_epoch_loop batch_losses 0 0

/-- One batch of `one_epoch_test` as the loop observes it: the loss value
`loss(output, target).item()`, the number of correct predictions
`pred.eq(target.view_as(pred)).sum().item()` and the batch size
`data.size(0)` (train.py lines 145-155). -/
structure TestBatch where
  loss_value : ℚ
  batch_correct : ℕ
  batch_size : ℕ

/-- Accumulator of `one_epoch_test` (train.py lines 120-122):
`test_loss = 0.0`, `correct = 0.0`, `total = 0.0`. -/
structure TestResult where
  test_loss : ℚ
  correct : ℕ
  total : ℕ

/-- Embedding of the loop of `one_epoch_test` (train.py lines 131-155):
`test_loss = test_loss + (1 / (batch_idx + 1)) * (loss_value - test_loss)`,
`correct += ...`, `total += data.size(0)`. -/
def one_epoch_test_loop : List TestBatch → ℕ → TestResult → TestResult
  | [], _, r => r
  | b :: rest, batch_idx, r =>
    one_epoch_test_loop rest (batch_idx + 1)
      { test_loss := r.test_loss + (1 / ((batch_idx : ℚ) + 1)) * (b.loss_value - r.test_loss)
        correct := r.correct + b.batch_correct
        total := r.total + b.batch_size }

/-- Embedding of `one_epoch_test` (train.py lines 116-160); it returns
`test_loss`, with `correct` and `total` only printed. -/
def one_epoch_test (batches : List TestBatch) : TestResult :=
  one_epoch_test_loop batches 0 ⟨0, 0, 0⟩

/-- The save condition of `optimize` (train.py line 99):
`valid_loss_min is None or ((valid_loss_min - valid_loss) / valid_loss_min > 0.01)`. -/
def saveCond (valid_loss_min : Option ℚ) (valid_loss : ℚ) : Bool :=
  match valid_loss_min with
  | none => true
  | some m => decide ((m - valid_loss) / m > 0.01)

/-- The checkpoint-relevant state of `optimize`: the stored minimum
`valid_loss_min` (train.py line 82) and the trace of checkpoint writes to
`save_path` (`torch.save` at line 101), most recent last, recorded as the
validation loss at which each save happened. -/
structure CkState where
  valid_loss_min : Option ℚ
  saves : List ℚ

/-- One epoch of the checkpoint logic of `optimize` (train.py lines 98-102):
if the save condition holds, the model is saved and
`valid_loss_min = valid_loss`; otherwise nothing happens. -/
def checkpointStep (s : CkState) (valid_loss : ℚ) : CkState :=
  if saveCond s.valid_loss_min valid_loss then
    { valid_loss_min := some valid_loss, saves := s.saves ++ [valid_loss] }
  else s

/-- The checkpoint logic of `optimize` over the per-epoch validation-loss
sequence, starting from `valid_loss_min = None` and no saves. -/
def runCheckpoint (valid_losses : List ℚ) : CkState :=
  valid_losses.foldl checkpointStep { valid_loss_min := none, saves := [] }

/-- The state threaded through `optimize`: the opaque model/optimizer state
`params`, the stored minimum and the trace of checkpoint writes. -/
structure OptimizeState (P : Type) where
  params : P
  valid_loss_min : Option ℚ
  saves : List ℚ

/-- One iteration of the epoch loop of `optimize` (train.py lines 89-113):
run `train_one_epoch` (which may update the model state), run
`valid_one_epoch` on the updated model, then apply the checkpoint rule of
lines 98-102.  `trainE` abstracts one call of `train_one_epoch` (new model
state and training loss), `validE` one call of `valid_one_epoch`.  The
scheduler step (line 105) and interactive logging (lines 108-113) touch
neither the checkpoint state nor the model parameters. -/
def optimizeEpoch {P : Type} (trainE : P → P × ℚ) (validE : P → ℚ)
    (s : OptimizeState P) : OptimizeState P :=
  let p1 := (trainE s.params).1
  let valid_loss := validE p1
  if saveCond s.valid_loss_min valid_loss then
    { params := p1, valid_loss_min := some valid_loss, saves := s.saves ++ [valid_loss] }
  else
    { s with params := p1 }

/-- The epoch loop of `optimize`, `n` epochs remaining. -/
def optimizeLoop {P : Type} (trainE : P → P × ℚ) (validE : P → ℚ) :
    ℕ → OptimizeState P → OptimizeState P
  | 0, s => s
  | n + 1, s => optimizeLoop trainE validE n (optimizeEpoch trainE validE s)

/-- Embedding of `optimize` (train.py lines 73-113): `valid_loss_min = None`
(line 82), then `for epoch in range(1, n_epochs + 1)` (line 89), which runs
`max 0 n_epochs = n_epochs.toNat` iterations. -/
def optimize {P : Type} (trainE : P → P × ℚ) (validE : P → ℚ)
    (model : P) (n_epochs : ℤ) : OptimizeState P :=
  optimizeLoop trainE validE n_epochs.toNat
    { params := model, valid_loss_min := none, saves := [] }

/-- A per-batch float loss value as the loops see it: either a finite value
(modelled exactly as a rational) or NaN.  NaN absorbs every arithmetic
operation, as IEEE NaN does for the additions, subtractions and
multiplications the running-average update performs. -/
inductive RVal where
  | nan : RVal
  | fin : ℚ → RVal
deriving DecidableEq

/-- Addition on loss values; NaN propagates. -/
def RVal.add : RVal → RVal → RVal
  | RVal.fin a, RVal.fin b => RVal.fin (a + b)
  | _, _ => RVal.nan

/-- Subtraction on loss values; NaN propagates. -/
def RVal.sub : RVal → RVal → RVal
  | RVal.fin a, RVal.fin b => RVal.fin (a - b)
  | _, _ => RVal.nan

/-- Multiplication on loss values; NaN propagates. -/
def RVal.mul : RVal → RVal → RVal
  | RVal.fin a, RVal.fin b => RVal.fin (a * b)
  | _, _ => RVal.nan

instance : Add RVal := ⟨RVal.add⟩

instance : Sub RVal := ⟨RVal.sub⟩

instance : Mul RVal := ⟨RVal.mul⟩

/-- A loss value is finite exactly when it is not NaN. -/
def RVal.isFinite : RVal → Bool
  | RVal.nan => false
  | RVal.fin _ => true

/-- The loop of `train_one_epoch` (train.py line 38) over NaN-aware loss
values: the same update as `train_one_epoch_loop`. -/
def train_one_epochF_loop : List RVal → ℕ → RVal → RVal
  | [], _, train_loss => train_loss
  | loss_value :: rest, batch_idx, train_loss =>
    train_one_epochF_loop rest (batch_idx + 1)
      (train_loss + RVal.fin (1 / ((batch_idx : ℚ) + 1)) * (loss_value - train_loss))

/-- `train_one_epoch` over NaN-aware loss values. -/
def train_one_epochF (batch_losses : List RVal) : RVal :=
  train_one_epochF_loop batch_losses 0 (RVal.fin 0)

/-- The loop of `valid_one_epoch` (train.py line 68) over NaN-aware loss
values. -/
def valid_one_epochF_loop : List RVal → ℕ → RVal → RVal
  | [], _, valid_loss => valid_loss
  | loss_value :: rest, batch_idx, valid_loss =>
    valid_one_epochF_loop rest (batch_idx + 1)
      (valid_loss + RVal.fin (1 / ((batch_idx : ℚ) + 1)) * (loss_value - valid_loss))

/-- `valid_one_epoch` over NaN-aware loss values. -/
def valid_one_epochF (batch_losses : List RVal) : RVal :=
  valid_one_epochF_loop batch_losses 0 (RVal.fin 0)

/-- The loss recurrence of `one_epoch_test` (train.py line 148) over
NaN-aware loss values; the accuracy counters do not feed into the returned
`test_loss` and are embedded in `one_epoch_test`. -/
def one_epoch_testF_loop : List RVal → ℕ → RVal → RVal
  | [], _, test_loss => test_loss
  | loss_value :: rest, batch_idx, test_loss =>
    one_epoch_testF_loop rest (batch_idx + 1)
      (test_loss + RVal.fin (1 / ((batch_idx : ℚ) + 1)) * (loss_value - test_loss))

/-- The `test_loss` returned by `one_epoch_test` over NaN-aware loss values. -/
def one_epoch_testF (batch_losses : List RVal) : RVal :=
  one_epoch_testF_loop batch_losses 0 (RVal.fin 0)

/-- State-passing embedding of `train_one_epoch` (train.py lines 11-40) with
the model/optimizer state explicit: each iteration computes the batch loss
from the current model (`forward`) and then performs
`optimizer.step()` (line 35), which updates the model state
(`optimizer_step`).  Returns the final model state and the running loss. -/
def train_one_epochS {P B : Type} (forward : P → B → ℚ) (optimizer_step : P → B → P) :
    List B → P → ℕ → ℚ → P × ℚ
  | [], model, _, train_loss => (model, train_loss)
  | batch :: rest, model, batch_idx, train_loss =>
    let loss_value := forward model batch
    train_one_epochS forward optimizer_step rest (optimizer_step model batch) (batch_idx + 1)
      (train_loss + (1 / ((batch_idx : ℚ) + 1)) * (loss_value - train_loss))

/-- State-passing embedding of `valid_one_epoch` (train.py lines 43-70): the
body runs under `torch.no_grad()` and contains no optimizer call or other
assignment to the model parameters, so each iteration passes the model state
on unchanged. -/
def valid_one_epochS {P B : Type} (forward : P → B → ℚ) :
    List B → P → ℕ → ℚ → P × ℚ
  | [], model, _, valid_loss => (model, valid_loss)
  | batch :: rest, model, batch_idx, valid_loss =>
    let loss_value := forward model batch
    valid_one_epochS forward rest model (batch_idx + 1)
      (valid_loss + (1 / ((batch_idx : ℚ) + 1)) * (loss_value - valid_loss))

/-- State-passing embedding of `one_epoch_test` (train.py lines 116-160):
`evalBatch` yields the batch loss, the number of correct predictions and the
batch size; the body runs under `torch.no_grad()` with no optimizer call, so
the model state is passed on unchanged. -/
def one_epoch_testS {P B : Type} (evalBatch : P → B → ℚ × ℕ × ℕ) :
    List B → P → ℕ → TestResult → P × TestResult
  | [], model, _, r => (model, r)
  | batch :: rest, model, batch_idx, r =>
    let e := evalBatch model batch
    one_epoch_testS evalBatch rest model (batch_idx + 1)
      { test_loss := r.test_loss + (1 / ((batch_idx : ℚ) + 1)) * (e.1 - r.test_loss)
        correct := r.correct + e.2.1
        total := r.total + e.2.2 }

/-- The model/optimizer state after running the first `n` epochs of the
`optimize` loop: each epoch updates it by one call of `train_one_epoch`. -/
def paramsAfter {P : Type} (trainE : P → P × ℚ) : ℕ → P → P
  | 0, p => p
  | n + 1, p => paramsAfter trainE n (trainE p).1

/-- The sequence of per-epoch validation losses a run of `optimize` observes:
epoch `k` trains (updating the model state) and then validates the updated
model (train.py lines 92 and 95). -/
def observedValidLosses {P : Type} (trainE : P → P × ℚ) (validE : P → ℚ) :
    ℕ → P → List ℚ
  | 0, _ => []
  | n + 1, p => validE (trainE p).1 :: observedValidLosses trainE validE n (trainE p).1

/-- Scaled form of the running-average invariant: after consuming `ls` with the
batch counter at `k`, the accumulator times the final counter equals the old
accumulator times `k` plus the sum of the consumed losses. -/
theorem train_one_epoch_loop_mul (ls : List ℚ) : ∀ (k : ℕ) (acc : ℚ),
    train_one_epoch_loop ls k acc * ((k : ℚ) + ls.length) = acc * k + ls.sum := by
  induction ls with
  | nil => intro k acc; simp [train_one_epoch_loop]
  | cons l rest ih =>
    intro k acc
    have hne : ((k : ℚ) + 1) ≠ 0 := by positivity
    have h := ih (k + 1) (acc + (1 / ((k : ℚ) + 1)) * (l - acc))
    simp only [train_one_epoch_loop, List.length_cons, List.sum_cons]
    push_cast at h ⊢
    have harr : (k : ℚ) + ((rest.length : ℚ) + 1) = ((k : ℚ) + 1) + (rest.length : ℚ) := by
      ring
    rw [harr, h]
    field_simp
    ring

/-- On a non-empty loss sequence the running average is the arithmetic mean. -/
theorem train_one_epoch_mean (ls : List ℚ) (h : ls ≠ []) :
    train_one_epoch ls = ls.sum / (ls.length : ℚ) := by
  have hlen : (0 : ℚ) < (ls.length : ℚ) := by
    exact_mod_cast List.length_pos.mpr h
  have hm := train_one_epoch_loop_mul ls 0 0
  simp only [Nat.cast_zero, zero_add, zero_mul] at hm
  rw [train_one_epoch, eq_div_iff (ne_of_gt hlen)]
  linarith [hm]

/-- The loop of `valid_one_epoch` computes the same value as the loop of
`train_one_epoch` (the update on train.py line 68 is the one on line 38). -/
theorem valid_one_epoch_loop_eq (ls : List ℚ) : ∀ (k : ℕ) (acc : ℚ),
    valid_one_epoch_loop ls k acc = train_one_epoch_loop ls k acc := by
  induction ls with
  | nil => intro k acc; rfl
  | cons l rest ih =>
    intro k acc
    simp only [valid_one_epoch_loop, train_one_epoch_loop, ih]

/-- The `test_loss` component of the loop of `one_epoch_test` is the
running-average loop of `train_one_epoch` over the batch loss values. -/
theorem one_epoch_test_loop_loss (bs : List TestBatch) : ∀ (k : ℕ) (r : TestResult),
    (one_epoch_test_loop bs k r).test_loss =
      train_one_epoch_loop (bs.map TestBatch.loss_value) k r.test_loss := by
  induction bs with
  | nil => intro k r; rfl
  | cons b rest ih =>
    intro k r
    simp only [one_epoch_test_loop, List.map_cons, train_one_epoch_loop, ih]

/-- NaN absorbs addition on the right. -/
theorem RVal.add_nan (a : RVal) : a + RVal.nan = RVal.nan := by
  cases a <;> rfl

/-- NaN absorbs subtraction on the right. -/
theorem RVal.sub_nan (a : RVal) : a - RVal.nan = RVal.nan := by
  cases a <;> rfl

/-- NaN absorbs subtraction on the left. -/
theorem RVal.nan_sub (a : RVal) : RVal.nan - a = RVal.nan := by
  cases a <;> rfl

/-- NaN absorbs multiplication on the right. -/
theorem RVal.mul_nan (a : RVal) : a * RVal.nan = RVal.nan := by
  cases a <;> rfl

/-- Once the accumulator is NaN, the running-average loop stays NaN. -/
theorem train_one_epochF_loop_nan (ls : List RVal) : ∀ (k : ℕ),
    train_one_epochF_loop ls k RVal.nan = RVal.nan := by
  induction ls with
  | nil => intro k; rfl
  | cons l rest ih =>
    intro k
    have hstep : RVal.nan + RVal.fin (1 / ((k : ℚ) + 1)) * (l - RVal.nan) = RVal.nan := by
      rw [RVal.sub_nan, RVal.mul_nan, RVal.add_nan]
    simp only [train_one_epochF_loop, hstep, ih]

/-- A NaN batch loss anywhere in the remaining sequence makes the
running-average loop return NaN, whatever the accumulator. -/
theorem train_one_epochF_loop_mem_nan (ls : List RVal) (h : RVal.nan ∈ ls) :
    ∀ (k : ℕ) (acc : RVal), train_one_epochF_loop ls k acc = RVal.nan := by
  induction ls with
  | nil => cases h
  | cons l rest ih =>
    intro k acc
    rcases List.mem_cons.mp h with h1 | h2
    · have hstep : acc + RVal.fin (1 / ((k : ℚ) + 1)) * (l - acc) = RVal.nan := by
        rw [← h1, RVal.nan_sub, RVal.mul_nan, RVal.add_nan]
      simp only [train_one_epochF_loop, hstep]
      exact train_one_epochF_loop_nan rest (k + 1)
    · exact ih h2 (k + 1) _

/-- If every remaining batch loss is finite and the accumulator is finite,
the running-average loop returns a finite value. -/
theorem train_one_epochF_loop_finite (ls : List RVal) : ∀ (k : ℕ) (acc : ℚ),
    (∀ x ∈ ls, x.isFinite = true) →
      (train_one_epochF_loop ls k (RVal.fin acc)).isFinite = true := by
  induction ls with
  | nil => intro k acc _; rfl
  | cons l rest ih =>
    intro k acc h
    have hl := h l (List.mem_cons_self l rest)
    cases l with
    | nan => simp [RVal.isFinite] at hl
    | fin q =>
      have hstep : RVal.fin acc + RVal.fin (1 / ((k : ℚ) + 1)) * (RVal.fin q - RVal.fin acc)
          = RVal.fin (acc + 1 / ((k : ℚ) + 1) * (q - acc)) := rfl
      simp only [train_one_epochF_loop, hstep]
      exact ih (k + 1) _ fun x hx => h x (List.mem_cons_of_mem _ hx)

/-- The NaN-aware loop of `valid_one_epoch` equals the NaN-aware loop of
`train_one_epoch`. -/
theorem valid_one_epochF_loop_eq (ls : List RVal) : ∀ (k : ℕ) (acc : RVal),
    valid_one_epochF_loop ls k acc = train_one_epochF_loop ls k acc := by
  induction ls with
  | nil => intro k acc; rfl
  | cons l rest ih =>
    intro k acc
    simp only [valid_one_epochF_loop, train_one_epochF_loop, ih]

/-- The NaN-aware loss loop of `one_epoch_test` equals the NaN-aware loop of
`train_one_epoch`. -/
theorem one_epoch_testF_loop_eq (ls : List RVal) : ∀ (k : ℕ) (acc : RVal),
    one_epoch_testF_loop ls k acc = train_one_epochF_loop ls k acc := by
  induction ls with
  | nil => intro k acc; rfl
  | cons l rest ih =>
    intro k acc
    simp only [one_epoch_testF_loop, train_one_epochF_loop, ih]

/-- One checkpoint step preserves the invariant that the stored minimum is
the loss of the most recent save. -/
theorem checkpointStep_getLast (s : CkState) (v : ℚ)
    (h : s.valid_loss_min = s.saves.getLast?) :
    (checkpointStep s v).valid_loss_min = (checkpointStep s v).saves.getLast? := by
  unfold checkpointStep
  split
  · simp
  · exact h

/-- Folding checkpoint steps preserves the last-save invariant. -/
theorem foldl_checkpointStep_getLast (ls : List ℚ) : ∀ (s : CkState),
    s.valid_loss_min = s.saves.getLast? →
      (ls.foldl checkpointStep s).valid_loss_min =
        (ls.foldl checkpointStep s).saves.getLast? := by
  induction ls with
  | nil => intro s h; exact h
  | cons v rest ih =>
    intro s h
    exact ih _ (checkpointStep_getLast s v h)

/-- One epoch of `optimize` updates the model state by the training call and
the checkpoint fields by `checkpointStep` at the observed validation loss. -/
theorem optimizeEpoch_eq_checkpointStep {P : Type} (trainE : P → P × ℚ)
    (validE : P → ℚ) (s : OptimizeState P) :
    optimizeEpoch trainE validE s =
      { params := (trainE s.params).1
        valid_loss_min :=
          (checkpointStep ⟨s.valid_loss_min, s.saves⟩ (validE (trainE s.params).1)).valid_loss_min
        saves :=
          (checkpointStep ⟨s.valid_loss_min, s.saves⟩ (validE (trainE s.params).1)).saves } := by
  by_cases hc : saveCond s.valid_loss_min (validE (trainE s.params).1) = true
  · simp [optimizeEpoch, checkpointStep, hc]
  · simp [optimizeEpoch, checkpointStep, hc]

/-- The epoch loop of `optimize` decomposes into the model-state trajectory
and a fold of checkpoint steps over the observed validation losses. -/
theorem optimizeLoop_eq_foldl {P : Type} (trainE : P → P × ℚ) (validE : P → ℚ) :
    ∀ (n : ℕ) (p : P) (m : Option ℚ) (sv : List ℚ),
      optimizeLoop trainE validE n ⟨p, m, sv⟩ =
        { params := paramsAfter trainE n p
          valid_loss_min :=
            ((observedValidLosses trainE validE n p).foldl checkpointStep
              ⟨m, sv⟩).valid_loss_min
          saves :=
            ((observedValidLosses trainE validE n p).foldl checkpointStep ⟨m, sv⟩).saves } := by
  intro n
  induction n with
  | zero => intro p m sv; rfl
  | succ n ih =>
    intro p m sv
    have hstep := optimizeEpoch_eq_checkpointStep trainE validE ⟨p, m, sv⟩
    simp only [optimizeLoop, hstep, observedValidLosses, paramsAfter, List.foldl_cons]
    rw [ih]

/-- The checkpoint fields of a run of `optimize` are `runCheckpoint` of the
observed validation-loss sequence. -/
theorem optimize_eq_runCheckpoint {P : Type} (trainE : P → P × ℚ) (validE : P → ℚ)
    (model : P) (n_epochs : ℤ) :
    (optimize trainE validE model n_epochs).valid_loss_min =
        (runCheckpoint (observedValidLosses trainE validE n_epochs.toNat model)).valid_loss_min ∧
      (optimize trainE validE model n_epochs).saves =
        (runCheckpoint (observedValidLosses trainE validE n_epochs.toNat model)).saves := by
  unfold optimize runCheckpoint
  rw [optimizeLoop_eq_foldl]
  exact ⟨rfl, rfl⟩

/-- A checkpoint step never removes saves: a non-empty save trace stays
non-empty. -/
theorem checkpointStep_saves_ne_nil (s : CkState) (v : ℚ) (h : s.saves ≠ []) :
    (checkpointStep s v).saves ≠ [] := by
  unfold checkpointStep
  split
  · simp
  · exact h

/-- Folding checkpoint steps never empties a non-empty save trace. -/
theorem foldl_checkpointStep_saves_ne_nil (ls : List ℚ) : ∀ (s : CkState),
    s.saves ≠ [] → (ls.foldl checkpointStep s).saves ≠ [] := by
  induction ls with
  | nil => intro s h; exact h
  | cons v rest ih =>
    intro s h
    exact ih _ (checkpointStep_saves_ne_nil s v h)

/-- The validation loop threads the model state through unchanged. -/
theorem valid_one_epochS_model {P B : Type} (forward : P → B → ℚ) (bs : List B) :
    ∀ (model : P) (k : ℕ) (acc : ℚ),
      (valid_one_epochS forward bs model k acc).1 = model := by
  induction bs with
  | nil => intro model k acc; rfl
  | cons b rest ih =>
    intro model k acc
    simp only [valid_one_epochS]
    exact ih model (k + 1) _

/-- The test loop threads the model state through unchanged. -/
theorem one_epoch_testS_model {P B : Type} (evalBatch : P → B → ℚ × ℕ × ℕ)
    (bs : List B) : ∀ (model : P) (k : ℕ) (r : TestResult),
      (one_epoch_testS evalBatch bs model k r).1 = model := by
  induction bs with
  | nil => intro model k r; rfl
  | cons b rest ih =>
    intro model k r
    simp only [one_epoch_testS]
    exact ih model (k + 1) _

/-- C1: in each epoch of `optimize`, the model is saved to `save_path` iff
the stored minimum is `None` or `(best - current) / best > 0.01`; exactly
when it saves, the stored minimum becomes the current validation loss, and
when it does not save both the save trace and the stored minimum are
unchanged. -/
theorem checkpoint_save_iff (s : CkState) (valid_loss : ℚ) :
    ((checkpointStep s valid_loss).saves = s.saves ++ [valid_loss] ↔
      s.valid_loss_min = none ∨
        ∃ best, s.valid_loss_min = some best ∧ (best - valid_loss) / best > 0.01) ∧
    ((checkpointStep s valid_loss).saves = s.saves ++ [valid_loss] →
      (checkpointStep s valid_loss).valid_loss_min = some valid_loss) ∧
    ((checkpointStep s valid_loss).saves ≠ s.saves ++ [valid_loss] →
      (checkpointStep s valid_loss).saves = s.saves ∧
        (checkpointStep s valid_loss).valid_loss_min = s.valid_loss_min) := by
  obtain ⟨m, sv⟩ := s
  cases m with
  | none => simp [checkpointStep, saveCond]
  | some best =>
    by_cases h : (best - valid_loss) / best > 0.01
    · simp [checkpointStep, saveCond, h]
    · simp [checkpointStep, saveCond, h]

/-- C2: on every non-empty batch-loss sequence, the running average
maintained by `train_one_epoch` (and the identical updates in
`valid_one_epoch` and `one_epoch_test`) equals the arithmetic mean of the
batch losses at the end of the loop. -/
theorem running_average_is_mean (ls : List ℚ) (h : ls ≠ []) :
    train_one_epoch ls = ls.sum / (ls.length : ℚ) ∧
      valid_one_epoch ls = ls.sum / (ls.length : ℚ) ∧
      ∀ bs : List TestBatch, bs.map TestBatch.loss_value = ls →
        (one_epoch_test bs).test_loss = ls.sum / (ls.length : ℚ) := by
  refine ⟨train_one_epoch_mean ls h, ?_, ?_⟩
  · rw [valid_one_epoch, valid_one_epoch_loop_eq]
    exact train_one_epoch_mean ls h
  · intro bs hbs
    rw [one_epoch_test, one_epoch_test_loop_loss, hbs]
    exact train_one_epoch_mean ls h

/-- Witness for C2 at the loss sequence `[1, 2, 3]`. -/
theorem running_average_is_mean_witness :
    ([(1 : ℚ), 2, 3] ≠ []) ∧
      (train_one_epoch [(1 : ℚ), 2, 3] =
          ([(1 : ℚ), 2, 3]).sum / (([(1 : ℚ), 2, 3]).length : ℚ) ∧
        valid_one_epoch [(1 : ℚ), 2, 3] =
          ([(1 : ℚ), 2, 3]).sum / (([(1 : ℚ), 2, 3]).length : ℚ) ∧
        ∀ bs : List TestBatch, bs.map TestBatch.loss_value = [(1 : ℚ), 2, 3] →
          (one_epoch_test bs).test_loss =
            ([(1 : ℚ), 2, 3]).sum / (([(1 : ℚ), 2, 3]).length : ℚ)) :=
  ⟨by decide, running_average_is_mean [(1 : ℚ), 2, 3] (by decide)⟩

/-- C3 fails: in a run of `optimize` whose validation losses are 100 then 99,
the stored minimum after epoch 2 is 100, although the minimum validation
loss observed in epochs 1..2 is 99: a 1% improvement that is not strictly
greater than 1% does not update the stored minimum. -/
theorem stored_min_not_minimum_cex :
    (optimize (fun p => (p + 1, 0)) (fun p => if p = 1 then (100 : ℚ) else 99)
        (0 : ℕ) 2).valid_loss_min = some 100 ∧
      min (100 : ℚ) 99 = 99 ∧ (100 : ℚ) ≠ 99 := by
  refine ⟨?_, by norm_num, by norm_num⟩
  show (optimizeLoop _ _ 2 _).valid_loss_min = some 100
  norm_num [optimizeLoop, optimizeEpoch, saveCond]

/-- C3 amended: across every run of `optimize`, the stored minimum
`valid_loss_min` equals the validation loss of the most recent epoch that
saved a checkpoint (the last entry of the save trace); it is not in general
the minimum of the validation losses observed so far. -/
theorem stored_min_eq_last_saved {P : Type} (trainE : P → P × ℚ) (validE : P → ℚ)
    (model : P) (n_epochs : ℤ) :
    (optimize trainE validE model n_epochs).valid_loss_min =
      (optimize trainE validE model n_epochs).saves.getLast? := by
  obtain ⟨h1, h2⟩ := optimize_eq_runCheckpoint trainE validE model n_epochs
  rw [h1, h2]
  simp only [runCheckpoint]
  exact foldl_checkpointStep_getLast _ _ rfl

/-- C4 fails: in a run of `optimize` whose validation losses are -1 then 1/2,
epoch 2 writes a checkpoint because `((-1) - 1/2) / (-1) = 3/2 > 0.01`, yet
the validation loss 1/2 did not improve on the stored minimum -1. -/
theorem save_without_improvement_cex :
    (optimize (fun p => (p + 1, 0)) (fun p => if p = 1 then (-1 : ℚ) else 1 / 2)
        (0 : ℕ) 2).saves = [(-1 : ℚ), 1 / 2] ∧ ¬ ((1 / 2 : ℚ) < -1) := by
  refine ⟨?_, by norm_num⟩
  show (optimizeLoop _ _ 2 _).saves = [(-1 : ℚ), 1 / 2]
  norm_num [optimizeLoop, optimizeEpoch, saveCond]

/-- C4 amended: in any epoch whose stored minimum `best` is positive, a
checkpoint is written only if `(best - current) / best > 0.01`, and then
`current < 0.99 * best`, a strict relative improvement of more than 1%; for
a non-positive stored minimum the code's test can succeed although the loss
did not improve. -/
theorem save_from_positive_min_improves (best valid_loss : ℚ) (hpos : 0 < best)
    (hsave : saveCond (some best) valid_loss = true) :
    (best - valid_loss) / best > 0.01 ∧ valid_loss < 99 / 100 * best := by
  simp only [saveCond, decide_eq_true_eq] at hsave
  refine ⟨hsave, ?_⟩
  rw [gt_iff_lt, lt_div_iff₀ hpos] at hsave
  have h01 : (0.01 : ℚ) = 1 / 100 := by norm_num
  rw [h01] at hsave
  linarith

/-- Witness for C4's amended claim at `best = 1`, `valid_loss = 1/2`. -/
theorem save_from_positive_min_improves_witness :
    (0 : ℚ) < 1 ∧ saveCond (some 1) (1 / 2) = true ∧
      (((1 : ℚ) - 1 / 2) / 1 > 0.01 ∧ (1 / 2 : ℚ) < 99 / 100 * 1) :=
  ⟨by norm_num, by norm_num [saveCond],
    save_from_positive_min_improves 1 (1 / 2) (by norm_num) (by norm_num [saveCond])⟩

/-- C5 fails: a run of `optimize` with `n_epochs = 0` performs no epochs and
writes no checkpoint at all. -/
theorem optimize_zero_epochs_no_save_cex :
    (optimize (fun p : ℕ => (p + 1, (0 : ℚ))) (fun _ => (0 : ℚ)) 0 0).saves = [] := rfl

/-- C5 amended: whenever `n_epochs ≥ 1`, at least one checkpoint is written
by the time `optimize` returns: the first epoch always saves because the
stored minimum starts as `None`. -/
theorem optimize_pos_epochs_saves {P : Type} (trainE : P → P × ℚ) (validE : P → ℚ)
    (model : P) (n_epochs : ℤ) (h : 1 ≤ n_epochs) :
    (optimize trainE validE model n_epochs).saves ≠ [] := by
  obtain ⟨_, h2⟩ := optimize_eq_runCheckpoint trainE validE model n_epochs
  rw [h2]
  obtain ⟨m, hm⟩ : ∃ m, n_epochs.toNat = m + 1 := ⟨n_epochs.toNat - 1, by omega⟩
  rw [hm]
  simp only [runCheckpoint, observedValidLosses, List.foldl_cons]
  apply foldl_checkpointStep_saves_ne_nil
  simp [checkpointStep, saveCond]

/-- Witness for C5's amended claim at one epoch. -/
theorem optimize_pos_epochs_saves_witness :
    (1 : ℤ) ≤ 1 ∧
      (optimize (fun p : ℕ => (p + 1, (0 : ℚ))) (fun _ => (0 : ℚ)) 0 1).saves ≠ [] :=
  ⟨by norm_num, optimize_pos_epochs_saves _ _ 0 1 (by norm_num)⟩

/-- C6 fails as stated: a NaN per-batch loss makes `train_one_epoch` return
NaN, so the returned loss is not unconditionally finite. -/
theorem nan_batch_loss_nan_result_cex :
    train_one_epochF [RVal.nan] = RVal.nan ∧
      (train_one_epochF [RVal.nan]).isFinite = false :=
  ⟨rfl, rfl⟩

/-- C6 amended: in every invocation of any of the three loops, if every
per-batch loss value is finite (non-NaN) then the loss the loop returns is
finite and not NaN. -/
theorem finite_batch_losses_finite_result (ls : List RVal)
    (h : ∀ x ∈ ls, x.isFinite = true) :
    (train_one_epochF ls).isFinite = true ∧ (valid_one_epochF ls).isFinite = true ∧
      (one_epoch_testF ls).isFinite = true := by
  refine ⟨train_one_epochF_loop_finite ls 0 0 h, ?_, ?_⟩
  · rw [valid_one_epochF, valid_one_epochF_loop_eq]
    exact train_one_epochF_loop_finite ls 0 0 h
  · rw [one_epoch_testF, one_epoch_testF_loop_eq]
    exact train_one_epochF_loop_finite ls 0 0 h

/-- Witness for C6's amended claim at the finite loss sequence `[1, 2]`. -/
theorem finite_batch_losses_finite_result_witness :
    (∀ x ∈ [RVal.fin 1, RVal.fin 2], x.isFinite = true) ∧
      ((train_one_epochF [RVal.fin 1, RVal.fin 2]).isFinite = true ∧
        (valid_one_epochF [RVal.fin 1, RVal.fin 2]).isFinite = true ∧
        (one_epoch_testF [RVal.fin 1, RVal.fin 2]).isFinite = true) :=
  ⟨by decide, finite_batch_losses_finite_result _ (by decide)⟩

/-- C7: the running-average computations of the three loops are the same
function of the per-batch loss sequence: `valid_one_epoch` equals
`train_one_epoch` on every loss sequence, and the `test_loss` returned by
`one_epoch_test` equals `train_one_epoch` of its batches' loss values. -/
theorem running_average_loops_identical :
    (∀ batch_losses : List ℚ,
        valid_one_epoch batch_losses = train_one_epoch batch_losses) ∧
      ∀ batches : List TestBatch,
        (one_epoch_test batches).test_loss =
          train_one_epoch (batches.map TestBatch.loss_value) := by
  constructor
  · intro ls
    rw [valid_one_epoch, train_one_epoch, valid_one_epoch_loop_eq]
  · intro bs
    rw [one_epoch_test, train_one_epoch, one_epoch_test_loop_loss]

/-- C8: numeric failures propagate: if some batch's loss value is NaN, the
loss returned by each of the three loops is NaN; the NaN flows through the
running-average update into the result. -/
theorem nan_loss_propagates (ls : List RVal) (h : RVal.nan ∈ ls) :
    train_one_epochF ls = RVal.nan ∧ valid_one_epochF ls = RVal.nan ∧
      one_epoch_testF ls = RVal.nan := by
  refine ⟨train_one_epochF_loop_mem_nan ls h 0 _, ?_, ?_⟩
  · rw [valid_one_epochF, valid_one_epochF_loop_eq]
    exact train_one_epochF_loop_mem_nan ls h 0 _
  · rw [one_epoch_testF, one_epoch_testF_loop_eq]
    exact train_one_epochF_loop_mem_nan ls h 0 _

/-- Witness for C8 at the loss sequence `[1, NaN]`. -/
theorem nan_loss_propagates_witness :
    RVal.nan ∈ [RVal.fin 1, RVal.nan] ∧
      (train_one_epochF [RVal.fin 1, RVal.nan] = RVal.nan ∧
        valid_one_epochF [RVal.fin 1, RVal.nan] = RVal.nan ∧
        one_epoch_testF [RVal.fin 1, RVal.nan] = RVal.nan) :=
  ⟨by decide, nan_loss_propagates _ (by decide)⟩

/-- C9: the no-grad loops leave the model's trainable parameters unchanged:
for every model state and data, `valid_one_epoch` and `one_epoch_test`
return the model state they received, their bodies containing no optimizer
step or other parameter update. -/
theorem no_grad_loops_preserve_model {P B : Type} (forward : P → B → ℚ)
    (evalBatch : P → B → ℚ × ℕ × ℕ) (vbatches tbatches : List B) (model : P) :
    (valid_one_epochS forward vbatches model 0 0).1 = model ∧
      (one_epoch_testS evalBatch tbatches model 0 ⟨0, 0, 0⟩).1 = model :=
  ⟨valid_one_epochS_model forward vbatches model 0 0,
    one_epoch_testS_model evalBatch tbatches model 0 ⟨0, 0, 0⟩⟩

/-- C10: with `n_epochs < 1` the epoch loop `range(1, n_epochs + 1)` of
`optimize` is empty: no training or validation epoch runs, no checkpoint is
written, the model state is returned unchanged and the stored minimum is
still `None`. -/
theorem optimize_no_epochs_identity {P : Type} (trainE : P → P × ℚ) (validE : P → ℚ)
    (model : P) (n_epochs : ℤ) (h : n_epochs < 1) :
    optimize trainE validE model n_epochs =
      { params := model, valid_loss_min := none, saves := [] } := by
  have h0 : n_epochs.toNat = 0 := by omega
  rw [optimize, h0]
  rfl

/-- Witness for C10 at `n_epochs = 0`. -/
theorem optimize_no_epochs_identity_witness :
    (0 : ℤ) < 1 ∧
      optimize (fun p : ℕ => (p + 1, (0 : ℚ))) (fun _ => (0 : ℚ)) 0 0 =
        { params := 0, valid_loss_min := none, saves := [] } :=
  ⟨by norm_num, optimize_no_epochs_identity _ _ 0 0 (by norm_num)⟩

end Landmark
